import Mathlib

/-!
Verification of the FraudGuard privacy-tiered vault storage engine.

This file shallowly embeds the engine's TypeScript source
(`src/frontend/src/lib/walrus-seal-track3.ts`,
`src/frontend/src/lib/walrus-seal-real.ts`, and the
`WalrusSealManager` variant) into Lean 4 and proves or refutes the
specification's claims about it.

Strings from the source are modelled as lists of byte values
(`List Nat`, each element a character code < 256) where character-level
operations matter, and as Lean `String`s where only equality matters.
The browser built-ins `btoa`/`atob` are modelled concretely as RFC 4648
base64 over byte lists (`atob` returning `none` where the built-in
throws on malformed input).
-/

namespace FraudGuard

/-- The base64 alphabet as character codes:
`A`-`Z` (65..90), `a`-`z` (97..122), `0`-`9` (48..57), `+` (43), `/` (47). -/
def b64alphabet : List Nat :=
  [65, 66, 67, 68, 69, 70, 71, 72, 73, 74, 75, 76, 77, 78, 79, 80,
   81, 82, 83, 84, 85, 86, 87, 88, 89, 90,
   97, 98, 99, 100, 101, 102, 103, 104, 105, 106, 107, 108, 109, 110,
   111, 112, 113, 114, 115, 116, 117, 118, 119, 120, 121, 122,
   48, 49, 50, 51, 52, 53, 54, 55, 56, 57, 43, 47]

/-- Encode one 6-bit value as a base64 character code. -/
def b64enc (n : Nat) : Nat := b64alphabet.getD n 65

/-- Decode one base64 character code back to its 6-bit value;
`none` when the character is not in the alphabet (`=` included). -/
def b64dec (c : Nat) : Option Nat :=
  (List.range 64).find? (fun n => b64alphabet.getD n 0 = c)

/-- JavaScript `btoa`: base64-encode a byte string, processing three bytes
into four characters, padding the final group with `=` (code 61). -/
def btoa : List Nat → List Nat
  | [] => []
  | [a] => [b64enc (a / 4), b64enc ((a % 4) * 16), 61, 61]
  | [a, b] => [b64enc (a / 4), b64enc ((a % 4) * 16 + b / 16),
               b64enc ((b % 16) * 4), 61]
  | a :: b :: c :: rest =>
      b64enc (a / 4) :: b64enc ((a % 4) * 16 + b / 16) ::
      b64enc ((b % 16) * 4 + c / 64) :: b64enc (c % 64) :: btoa rest

/-- JavaScript `atob`: base64-decode; `none` models the `InvalidCharacterError`
the built-in throws on input that is not well-formed padded base64. -/
def atob : List Nat → Option (List Nat)
  | [] => some []
  | a :: b :: c :: d :: rest =>
      match b64dec a, b64dec b with
      | some x, some y =>
          if c = 61 then
            if d = 61 ∧ rest = [] then some [x * 4 + y / 16] else none
          else
            match b64dec c with
            | some z =>
                if d = 61 then
                  if rest = [] then
                    some [x * 4 + y / 16, (y % 16) * 16 + z / 4]
                  else none
                else
                  match b64dec d with
                  | some w =>
                      (atob rest).map
                        (fun tail => (x * 4 + y / 16) :: ((y % 16) * 16 + z / 4) ::
                                     ((z % 4) * 64 + w) :: tail)
                  | none => none
            | none => none
      | _, _ => none
  | _ => none

theorem b64dec_b64enc : ∀ n < 64, b64dec (b64enc n) = some n := by decide

theorem b64enc_ne_61 : ∀ n < 64, b64enc n ≠ 61 := by decide

/-- Decoding inverts encoding on genuine byte strings. -/
theorem atob_btoa : ∀ (s : List Nat), (∀ b ∈ s, b < 256) → atob (btoa s) = some s
  | [], _ => by simp [btoa, atob]
  | [a], h => by
      have ha : a < 256 := h a (by simp)
      have h1 : a / 4 < 64 := by omega
      have h2 : (a % 4) * 16 < 64 := by omega
      simp [btoa, atob, b64dec_b64enc _ h1, b64dec_b64enc _ h2]
      omega
  | [a, b], h => by
      have ha : a < 256 := h a (by simp)
      have hb : b < 256 := h b (by simp)
      have h1 : a / 4 < 64 := by omega
      have h2 : (a % 4) * 16 + b / 16 < 64 := by omega
      have h3 : (b % 16) * 4 < 64 := by omega
      simp [btoa, atob, b64dec_b64enc _ h1, b64dec_b64enc _ h2, b64dec_b64enc _ h3,
            b64enc_ne_61 _ h3]
      constructor
      · omega
      · omega
  | a :: b :: c :: rest, h => by
      have ha : a < 256 := h a (by simp)
      have hb : b < 256 := h b (by simp)
      have hc : c < 256 := h c (by simp)
      have h1 : a / 4 < 64 := by omega
      have h2 : (a % 4) * 16 + b / 16 < 64 := by omega
      have h3 : (b % 16) * 4 + c / 64 < 64 := by omega
      have h4 : c % 64 < 64 := by omega
      have ih : atob (btoa rest) = some rest :=
        atob_btoa rest (fun x hx => h x (by simp [hx]))
      simp [btoa, atob, b64dec_b64enc _ h1, b64dec_b64enc _ h2, b64dec_b64enc _ h3,
            b64dec_b64enc _ h4, b64enc_ne_61 _ h3, b64enc_ne_61 _ h4, ih]
      refine ⟨by omega, by omega, by omega⟩

/-! ## Cipher Module

Embeds `WalrusStorage.encryptAES` / `decryptAES` and the tier dispatch of
`WalrusStorage.encryptWithPrivacy` / `decryptWithPrivacy`
(`walrus-seal-track3.ts`, lines 114-195).  The plaintext argument stands
for the JSON-serialized record (`JSON.stringify(data)`), as a byte list;
58 is the code of the separator character `:`.
-/

/-- The three privacy tiers of the engine. -/
inductive Tier where
  | publicTier
  | privateTier
  | secretTier
deriving DecidableEq, Repr

/-- `WalrusStorage.encryptAES` (line 185): `btoa(data + ':' + key)`. -/
def encryptAES (data key : List Nat) : List Nat :=
  btoa (data ++ 58 :: key)

/-- `WalrusStorage.decryptAES` (line 190): `atob(encryptedData)` then
`decoded.split(':')[0]`.  The `key` argument is accepted but never used by
the source.  `none` models the exception `atob` throws on malformed input. -/
def decryptAES (encryptedData key : List Nat) : Option (List Nat) :=
  (atob encryptedData).map (fun decoded => decoded.takeWhile (fun c => c ≠ 58))

/-- Tier dispatch of `WalrusStorage.encryptWithPrivacy` (lines 114-128):
`public` is plain base64, `private`/`secret` go through `encryptAES` with
the corresponding key. -/
def encrypt (plaintext : List Nat) (tier : Tier) (key : List Nat) : List Nat :=
  match tier with
  | .publicTier => btoa plaintext
  | .privateTier => encryptAES plaintext key
  | .secretTier => encryptAES plaintext key

/-- Tier dispatch of `WalrusStorage.decryptWithPrivacy` (lines 131-149). -/
def decrypt (ciphertext : List Nat) (tier : Tier) (key : List Nat) :
    Option (List Nat) :=
  match tier with
  | .publicTier => atob ciphertext
  | .privateTier => decryptAES ciphertext key
  | .secretTier => decryptAES ciphertext key

/-- Flip bit `b` of the `i`-th byte of a byte string. -/
def flipBit (l : List Nat) (i b : Nat) : List Nat :=
  l.set i (Nat.xor (l.getD i 0) (2 ^ b))

theorem takeWhile_ne_append (p k : List Nat) (h : 58 ∉ p) :
    (p ++ 58 :: k).takeWhile (fun c => c ≠ 58) = p := by
  induction p with
  | nil => simp
  | cons x xs ih =>
      have hx : x ≠ 58 := fun hx => h (by simp [hx])
      have hxs : 58 ∉ xs := fun hm => h (by simp [hm])
      have ih' := ih hxs
      simp only [List.cons_append, List.takeWhile_cons]
      simp only [decide_not] at ih' ⊢
      simp [hx, ih']

/-- Positive side of the round-trip: for plaintexts free of the separator
byte `:` (58), `decryptAES` undoes `encryptAES` (whatever key is offered
to `decryptAES`, since the source ignores it). -/
theorem decryptAES_encryptAES (p k k' : List Nat) (hp : ∀ b ∈ p, b < 256)
    (hk : ∀ b ∈ k, b < 256) (h58 : 58 ∉ p) :
    decryptAES (encryptAES p k) k' = some p := by
  unfold decryptAES encryptAES
  rw [atob_btoa]
  · have := takeWhile_ne_append p k h58
    simp only [decide_not] at this ⊢
    simp [this]
  · intro b hb
    rcases List.mem_append.1 hb with h1 | h2
    · exact hp b h1
    · rcases List.mem_cons.1 h2 with h3 | h4
      · omega
      · exact hk b h4

theorem decryptAES_encryptAES_witness :
    decryptAES (encryptAES [97, 98] [107]) [107] = some [97, 98] :=
  decryptAES_encryptAES [97, 98] [107] [107] (by decide) (by decide) (by decide)

/-- Public-tier round trip always holds: it is plain base64. -/
theorem decrypt_encrypt_publicTier (p k : List Nat) (hp : ∀ b ∈ p, b < 256) :
    decrypt (encrypt p Tier.publicTier k) Tier.publicTier k = some p :=
  atob_btoa p hp

theorem decrypt_encrypt_publicTier_witness :
    decrypt (encrypt [97, 58, 98] Tier.publicTier []) Tier.publicTier []
      = some [97, 58, 98] :=
  decrypt_encrypt_publicTier [97, 58, 98] [] (by decide)

/-- C1: the round-trip `decrypt (encrypt p tier k) tier k = p` FAILS on the
code for `private`/`secret` tiers whenever the plaintext contains the byte
`:` (58), because `encryptAES` is `btoa(data + ':' + key)` and `decryptAES`
truncates the decode at the first `:`.  At plaintext `"a:b"` =
`[97, 58, 98]` with key `"k"` = `[107]`, decryption succeeds but returns
`"a"` = `[97]`, not the original plaintext.  (The manager's own
`retrieve`/`store` pair hits this on every JSON object payload, whose
serialization always contains `:`.) -/
theorem decrypt_encrypt_private_loses_colon_plaintext :
    decrypt (encrypt [97, 58, 98] Tier.privateTier [107]) Tier.privateTier [107]
        = some [97]
      ∧ some [97] ≠ some ([97, 58, 98] : List Nat) := by decide

/-- C2: flipping a single bit of a private-tier ciphertext is NOT detected:
the ciphertext of plaintext `"a"` = `[97]` under key `"b"` = `[98]` is
`"YTpi"` = `[89, 84, 112, 105]`; flipping bit 0 of byte 0 yields `"XTpi"`,
which `decrypt` happily accepts, returning `"]"` = `[93]` — corrupted data
and no `DecryptionError`. -/
theorem decrypt_accepts_bitflipped_ciphertext :
    flipBit (encrypt [97] Tier.privateTier [98]) 0 0
        ≠ encrypt [97] Tier.privateTier [98]
      ∧ decrypt (flipBit (encrypt [97] Tier.privateTier [98]) 0 0)
          Tier.privateTier [98] = some [93]
      ∧ decrypt (encrypt [97] Tier.privateTier [98]) Tier.privateTier [98]
          = some [97]
      ∧ ([93] : List Nat) ≠ [97] := by decide

/-! ## Access Proof Module

Embeds `SealProofSystem` (`walrus-seal-track3.ts`, lines 199-280).  The
token string `SealProof.proof` is produced as `btoa(JSON.stringify(proofData))`
and consumed as `JSON.parse(atob(token))`; serialization of structured data
through the platform JSON builtins is modelled abstractly by the `Token`
type: `wellFormed pd` stands for any string decoding to `pd`, `malformed n`
for a string of length `n` on which decoding throws.  The SHA-256 `dataHash`
and the random verification key are computed by platform crypto and enter
the model as parameters.
-/

/-- The object serialized into the token by `generateProof` (lines 218-223). -/
structure ProofData where
  dataHash : List Nat
  publicInputs : List (List Nat)
  privateInputs : List (List Nat)
  timestamp : Int
deriving DecidableEq, Repr

/-- A token string, classified by the outcome of
`JSON.parse(atob(token))` followed by the `.timestamp` access in
`verifyProof`:
* `wellFormed pd` — decodes to a value with a numeric `timestamp` (and the
  remaining `ProofData` fields), as produced by `generateProof`;
* `parsedNoTimestamp` — decodes without throwing, but `.timestamp` is
  absent or not numeric (e.g. `btoa("{}")` = `"e30="`), so
  `Date.now() - proofData.timestamp` evaluates to `NaN`;
* `malformed n` — a string of length `n` on which decoding (or the
  `.timestamp` access, as for a token decoding to `null`) throws, landing
  in the `catch`. -/
inductive Token where
  | wellFormed (pd : ProofData)
  | parsedNoTimestamp
  | malformed (length : Nat)
deriving DecidableEq, Repr

/-- `token.length > 0` as observed by `WalrusStorage.verifyZkProof`; a
token that decodes at all is the base64 of nonempty JSON text and hence
nonempty. -/
def Token.nonempty : Token → Bool
  | .wellFormed _ => true
  | .parsedNoTimestamp => true
  | .malformed n => decide (0 < n)

/-- The `SealProof` interface (lines 35-40). -/
structure SealProof where
  proof : Token
  publicInputs : List (List Nat)
  privateInputs : List (List Nat)
  verificationKey : List Nat
deriving DecidableEq, Repr

/-- `SealProofSystem.generateProof` (lines 210-233). -/
def generateProof (dataHash : List Nat)
    (publicInputs privateInputs : List (List Nat))
    (now : Int) (verificationKey : List Nat) : SealProof :=
  { proof := Token.wellFormed
      { dataHash := dataHash
        publicInputs := publicInputs
        privateInputs := privateInputs
        timestamp := now }
    publicInputs := publicInputs
    privateInputs := privateInputs
    verificationKey := verificationKey }

/-- The 24-hour validity window, in milliseconds (line 242). -/
def validityWindowMs : Int := 24 * 60 * 60 * 1000

/-- `SealProofSystem.verifyProof` (lines 236-253): parse the token (a
thrown exception is caught and yields `false`), reject if the proof is
older than 24 hours, then require both input lists and the verification
key nonempty.  When the parsed value has no numeric `timestamp`, the age
is `NaN`, `NaN > 86400000` is `false`, and the expiry check is skipped —
the structural checks alone decide the result. -/
def verifyProof (now : Int) (pf : SealProof) : Bool :=
  match pf.proof with
  | .malformed _ => false
  | .parsedNoTimestamp =>
      decide (0 < pf.publicInputs.length) &&
      decide (0 < pf.privateInputs.length) &&
      decide (0 < pf.verificationKey.length)
  | .wellFormed pd =>
      if now - pd.timestamp > validityWindowMs then false
      else
        decide (0 < pf.publicInputs.length) &&
        decide (0 < pf.privateInputs.length) &&
        decide (0 < pf.verificationKey.length)

/-- `SealProofSystem.generatePasswordProof` (lines 256-266): public inputs
are `[walletAddress, entry.id]`, private inputs `[masterPassword,
entry.password]`. -/
def generatePasswordProof (entryHash entryId entryPassword masterPassword
    walletAddress : List Nat) (now : Int) (verificationKey : List Nat) :
    SealProof :=
  generateProof entryHash [walletAddress, entryId]
    [masterPassword, entryPassword] now verificationKey

/-- C4 counterexample: `verify` does NOT fail closed on every malformed
token.  The token `btoa("{}")` = `"e30="` parses to an object with no
numeric `timestamp`, so the age computation is `NaN`, the expiry check is
vacuously passed, and `verifyProof` returns `true` whenever the input
lists and verification key are nonempty — a token never issued by
`generateProof` (there is no issuance time `T` at all) is accepted. -/
theorem verifyProof_fails_open_on_timestampless_token :
    verifyProof 0
        { proof := Token.parsedNoTimestamp, publicInputs := [[2]],
          privateInputs := [[3]], verificationKey := [4] } = true := rfl

/-- C4 (amended): for a proof issued by `generateProof` at time `T`,
verification at time `V ≥ T` returns `true` exactly when `V` is within the
24-hour window and the public-input list, private-input list and
verification key are all nonempty; a token on which parsing throws yields
`false`; but a token that parses without a numeric timestamp skips the
expiry check entirely and is accepted exactly when the three structural
checks pass (fail-open on such tokens). -/
theorem verifyProof_window_and_shape_amended (dataHash : List Nat)
    (pubs privs : List (List Nat)) (vk : List Nat) (T V : Int) (hTV : T ≤ V) :
    (verifyProof V (generateProof dataHash pubs privs T vk) = true
        ↔ V ≤ T + validityWindowMs ∧ pubs ≠ [] ∧ privs ≠ [] ∧ vk ≠ [])
      ∧ (∀ (n : Nat) (ps qs : List (List Nat)) (w : List Nat),
          verifyProof V
            { proof := Token.malformed n, publicInputs := ps,
              privateInputs := qs, verificationKey := w } = false)
      ∧ (∀ (ps qs : List (List Nat)) (w : List Nat),
          verifyProof V
              { proof := Token.parsedNoTimestamp, publicInputs := ps,
                privateInputs := qs, verificationKey := w } = true
            ↔ ps ≠ [] ∧ qs ≠ [] ∧ w ≠ []) := by
  refine ⟨?_, ?_, ?_⟩
  · simp only [verifyProof, generateProof]
    by_cases hw : V - T > validityWindowMs
    · rw [if_pos hw]
      constructor
      · intro hcon
        simp at hcon
      · rintro ⟨h1, -⟩
        exfalso
        omega
    · rw [if_neg hw]
      have hv : V ≤ T + validityWindowMs := by omega
      simp [hv, Bool.and_eq_true, decide_eq_true_iff, List.length_pos, and_assoc]
  · intro n ps qs w
    rfl
  · intro ps qs w
    simp [verifyProof, Bool.and_eq_true, decide_eq_true_iff, List.length_pos,
          and_assoc]

theorem verifyProof_window_and_shape_amended_witness :
    ((0 : Int) ≤ 5) ∧
      (verifyProof 5 (generateProof [1] [[2]] [[3]] 0 [4]) = true
          ↔ (5 : Int) ≤ 0 + validityWindowMs ∧ ([[2]] : List (List Nat)) ≠ []
              ∧ ([[3]] : List (List Nat)) ≠ [] ∧ ([4] : List Nat) ≠ []) ∧
      (∀ (n : Nat) (ps qs : List (List Nat)) (w : List Nat),
        verifyProof 5
          { proof := Token.malformed n, publicInputs := ps,
            privateInputs := qs, verificationKey := w } = false) ∧
      (∀ (ps qs : List (List Nat)) (w : List Nat),
        verifyProof 5
            { proof := Token.parsedNoTimestamp, publicInputs := ps,
              privateInputs := qs, verificationKey := w } = true
          ↔ ps ≠ [] ∧ qs ≠ [] ∧ w ≠ []) :=
  ⟨by decide, verifyProof_window_and_shape_amended [1] [[2]] [[3]] [4] 0 5
    (by decide)⟩

/-! ## Walrus storage: `store` / `retrieve`

Embeds `WalrusStorage` (`walrus-seal-track3.ts`, lines 57-196).  Stored
payloads are the JSON-serialized record bytes.  The random UUID `id`, the
time-derived per-tier keys, and the SHA-256 `zkProofHash` are produced by
platform facilities and enter the model as parameters of `store`.
-/

/-- `WalrusStorageReference` (lines 23-33), with the metadata fields the
engine reads (`zkProofHash`, `privacyLevel`). -/
structure WalrusStorageReference where
  refId : Nat
  encryptedData : List Nat
  zkProofHash : List Nat
  privacyLevel : Tier
deriving DecidableEq, Repr

/-- The two private maps of `WalrusStorage` (lines 59-60). -/
structure WalrusState where
  storage : List (Nat × WalrusStorageReference)
  privacyLevels : List (Nat × Tier)
deriving DecidableEq, Repr

def walrusEmpty : WalrusState := { storage := [], privacyLevels := [] }

/-- `WalrusStorage.store` (lines 70-90): encrypt at the requested privacy
level, record the reference under a fresh id in both maps. -/
def walrusStore (st : WalrusState) (data : List Nat) (privacyLevel : Tier)
    (id : Nat) (key zkProofHash : List Nat) :
    WalrusStorageReference × WalrusState :=
  let reference : WalrusStorageReference :=
    { refId := id
      encryptedData := encrypt data privacyLevel key
      zkProofHash := zkProofHash
      privacyLevel := privacyLevel }
  (reference,
   { storage := (id, reference) :: st.storage
     privacyLevels := (id, privacyLevel) :: st.privacyLevels })

/-- `WalrusStorage.verifyZkProof` (lines 162-170):
`proof.proof.length > 0 && proof.publicInputs.length > 0`. -/
def verifyZkProof (pf : SealProof) : Bool :=
  pf.proof.nonempty && decide (0 < pf.publicInputs.length)

/-- The errors `retrieve` can throw, by source message:
`notFound` = "Data not found in Walrus storage",
`accessDenied` = "Secret data requires zero-knowledge proof" /
"Invalid zero-knowledge proof",
`invalidPrivacyLevel` = the `default` branch of `decryptWithPrivacy`,
`decryptionError` = `atob` throwing inside `decryptAES`. -/
inductive RetrieveError where
  | notFound
  | accessDenied
  | invalidPrivacyLevel
  | decryptionError
deriving DecidableEq, Repr

/-- `WalrusStorage.decryptWithPrivacy` (lines 131-149) as called by
`retrieve` with a possibly-absent privacy level. -/
def decryptWithPrivacy (encryptedData : List Nat) (privacyLevel : Option Tier)
    (key : List Nat) : Except RetrieveError (List Nat) :=
  match privacyLevel with
  | none => .error .invalidPrivacyLevel
  | some t =>
      match decrypt encryptedData t key with
      | some d => .ok d
      | none => .error .decryptionError

/-- `WalrusStorage.retrieve` (lines 93-111): look the reference up, demand a
proof for `secret` data, verify a supplied proof, then decrypt. -/
def walrusRetrieve (st : WalrusState) (reference : WalrusStorageReference)
    (proof : Option SealProof) (key : List Nat) :
    Except RetrieveError (List Nat) :=
  match st.storage.lookup reference.refId with
  | none => .error .notFound
  | some stored =>
      let privacyLevel := st.privacyLevels.lookup reference.refId
      if privacyLevel = some Tier.secretTier ∧ proof = none then
        .error .accessDenied
      else
        match proof with
        | some pf =>
            if verifyZkProof pf then
              decryptWithPrivacy stored.encryptedData privacyLevel key
            else .error .accessDenied
        | none => decryptWithPrivacy stored.encryptedData privacyLevel key

/-- Retrieving a stored `secret` record without a proof is denied — the
half of C3 the code does honour. -/
theorem retrieve_secret_without_proof_denied (st : WalrusState)
    (data : List Nat) (id : Nat) (key zkh retrievalKey : List Nat) :
    walrusRetrieve (walrusStore st data Tier.secretTier id key zkh).2
        (walrusStore st data Tier.secretTier id key zkh).1 none retrievalKey
      = .error .accessDenied := by
  simp [walrusStore, walrusRetrieve, List.lookup]

/-- Retrieving a stored `secret` record with a proof that fails
`verifyZkProof` is denied. -/
theorem retrieve_secret_invalid_proof_denied (st : WalrusState)
    (data : List Nat) (id : Nat) (key zkh retrievalKey : List Nat)
    (pf : SealProof) (hpf : verifyZkProof pf = false) :
    walrusRetrieve (walrusStore st data Tier.secretTier id key zkh).2
        (walrusStore st data Tier.secretTier id key zkh).1 (some pf) retrievalKey
      = .error .accessDenied := by
  simp [walrusStore, walrusRetrieve, List.lookup, hpf]

theorem retrieve_secret_invalid_proof_denied_witness :
    verifyZkProof { proof := Token.malformed 0, publicInputs := [],
                    privateInputs := [], verificationKey := [] } = false ∧
      walrusRetrieve (walrusStore walrusEmpty [97] Tier.secretTier 1 [107] [5]).2
          (walrusStore walrusEmpty [97] Tier.secretTier 1 [107] [5]).1
          (some { proof := Token.malformed 0, publicInputs := [],
                  privateInputs := [], verificationKey := [] }) [107]
        = .error .accessDenied :=
  ⟨by decide,
   retrieve_secret_invalid_proof_denied walrusEmpty [97] 1 [107] [5] [107]
     { proof := Token.malformed 0, publicInputs := [], privateInputs := [],
       verificationKey := [] } (by decide)⟩

/-- C3: the second half of the claim FAILS on the code.  Store the secret
record `'{"a":1}'` = `[123, 34, 97, 34, 58, 49, 125]`; retrieval without a
proof is denied as claimed, but retrieval with a freshly issued valid proof
(from `generatePasswordProof`) does NOT return the original record: the
broken `decryptAES` truncates it at the first `:` to `[123, 34, 97, 34]`. -/
theorem retrieve_secret_with_fresh_proof_corrupts :
    walrusRetrieve
        (walrusStore walrusEmpty [123, 34, 97, 34, 58, 49, 125]
          Tier.secretTier 1 [107] [5]).2
        (walrusStore walrusEmpty [123, 34, 97, 34, 58, 49, 125]
          Tier.secretTier 1 [107] [5]).1
        none [107] = .error .accessDenied
      ∧ verifyZkProof (generatePasswordProof [3] [1] [8] [7] [9] 0 [4]) = true
      ∧ walrusRetrieve
          (walrusStore walrusEmpty [123, 34, 97, 34, 58, 49, 125]
            Tier.secretTier 1 [107] [5]).2
          (walrusStore walrusEmpty [123, 34, 97, 34, 58, 49, 125]
            Tier.secretTier 1 [107] [5]).1
          (some (generatePasswordProof [3] [1] [8] [7] [9] 0 [4])) [107]
        = .ok [123, 34, 97, 34]
      ∧ ([123, 34, 97, 34] : List Nat) ≠ [123, 34, 97, 34, 58, 49, 125] := by
  refine ⟨rfl, rfl, rfl, by decide⟩

/-! ## Tier Classifier

Embeds `Track3PasswordManager.determinePrivacyLevel`
(`walrus-seal-track3.ts`, lines 512-526).
-/

/-- `Track3PasswordEntry` (lines 9-21); string fields as byte lists,
timestamps as milliseconds. -/
structure Track3PasswordEntry where
  entryId : List Nat
  title : List Nat
  username : List Nat
  password : List Nat
  url : List Nat
  notes : List Nat
  category : List Nat
  createdAt : Int
  updatedAt : Int
  zkVerified : Bool
  privacyLevel : Tier
deriving DecidableEq, Repr

/-- ASCII `String.prototype.toLowerCase` (the source strings are ASCII). -/
def toLowerCase (s : List Nat) : List Nat :=
  s.map (fun c => if 65 ≤ c ∧ c ≤ 90 then c + 32 else c)

/-- JavaScript `String.prototype.includes`: substring containment. -/
def includesSub (s sub : List Nat) : Bool := decide (sub <:+: s)

/-- The keyword list of line 513:
`['bank', 'credit', 'social', 'ssn', 'passport', 'medical']`. -/
def sensitiveKeywords : List (List Nat) :=
  [[98, 97, 110, 107],
   [99, 114, 101, 100, 105, 116],
   [115, 111, 99, 105, 97, 108],
   [115, 115, 110],
   [112, 97, 115, 115, 112, 111, 114, 116],
   [109, 101, 100, 105, 99, 97, 108]]

/-- `'Banking'` as bytes. -/
def categoryBanking : List Nat := [66, 97, 110, 107, 105, 110, 103]

/-- `'Personal'` as bytes. -/
def categoryPersonal : List Nat := [80, 101, 114, 115, 111, 110, 97, 108]

/-- `Track3PasswordManager.determinePrivacyLevel` (lines 512-526). -/
def determinePrivacyLevel (password : Track3PasswordEntry) : Tier :=
  let title := toLowerCase password.title
  let notes := toLowerCase password.notes
  if sensitiveKeywords.any
      (fun keyword => includesSub title keyword || includesSub notes keyword) then
    Tier.secretTier
  else if password.category = categoryBanking ∨
          password.category = categoryPersonal then
    Tier.privateTier
  else
    Tier.publicTier

/-- C5: the classifier returns `secret` exactly when a sensitive keyword
occurs (case-insensitively) in title or notes, else `private` exactly when
the category is `Banking` or `Personal`, else `public`; and the result
depends only on title, notes and category. -/
theorem determinePrivacyLevel_spec (r : Track3PasswordEntry) :
    (determinePrivacyLevel r = Tier.secretTier
        ↔ ∃ kw ∈ sensitiveKeywords,
            kw <:+: toLowerCase r.title ∨ kw <:+: toLowerCase r.notes)
      ∧ (determinePrivacyLevel r = Tier.privateTier
          ↔ ¬(∃ kw ∈ sensitiveKeywords,
                kw <:+: toLowerCase r.title ∨ kw <:+: toLowerCase r.notes)
            ∧ (r.category = categoryBanking ∨ r.category = categoryPersonal))
      ∧ (determinePrivacyLevel r = Tier.publicTier
          ↔ ¬(∃ kw ∈ sensitiveKeywords,
                kw <:+: toLowerCase r.title ∨ kw <:+: toLowerCase r.notes)
            ∧ ¬(r.category = categoryBanking ∨ r.category = categoryPersonal))
      ∧ (∀ r' : Track3PasswordEntry, r'.title = r.title → r'.notes = r.notes →
          r'.category = r.category →
          determinePrivacyLevel r' = determinePrivacyLevel r) := by
  have hsplit :
      sensitiveKeywords.any
          (fun keyword => includesSub (toLowerCase r.title) keyword ||
            includesSub (toLowerCase r.notes) keyword) = true
        ↔ ∃ kw ∈ sensitiveKeywords,
            kw <:+: toLowerCase r.title ∨ kw <:+: toLowerCase r.notes := by
    simp [List.any_eq_true, includesSub]
  refine ⟨?_, ?_, ?_, ?_⟩
  · unfold determinePrivacyLevel
    by_cases hkw : sensitiveKeywords.any
        (fun keyword => includesSub (toLowerCase r.title) keyword ||
          includesSub (toLowerCase r.notes) keyword) = true
    · simp [hkw, hsplit.1 hkw]
    · rw [if_neg hkw]
      simp only [← hsplit]
      constructor
      · intro h
        exfalso
        by_cases hcat : r.category = categoryBanking ∨ r.category = categoryPersonal
        · rw [if_pos hcat] at h
          exact Tier.noConfusion h
        · rw [if_neg hcat] at h
          exact Tier.noConfusion h
      · intro h
        exact absurd h hkw
  · unfold determinePrivacyLevel
    by_cases hkw : sensitiveKeywords.any
        (fun keyword => includesSub (toLowerCase r.title) keyword ||
          includesSub (toLowerCase r.notes) keyword) = true
    · rw [if_pos hkw]
      simp only [← hsplit]
      constructor
      · intro h
        exact Tier.noConfusion h
      · rintro ⟨hno, -⟩
        exact absurd hkw hno
    · rw [if_neg hkw]
      simp only [← hsplit]
      by_cases hcat : r.category = categoryBanking ∨ r.category = categoryPersonal
      · simp [hcat, hkw]
      · simp [hcat, hkw]
  · unfold determinePrivacyLevel
    by_cases hkw : sensitiveKeywords.any
        (fun keyword => includesSub (toLowerCase r.title) keyword ||
          includesSub (toLowerCase r.notes) keyword) = true
    · rw [if_pos hkw]
      simp only [← hsplit]
      constructor
      · intro h
        exact Tier.noConfusion h
      · rintro ⟨hno, -⟩
        exact absurd hkw hno
    · rw [if_neg hkw]
      simp only [← hsplit]
      by_cases hcat : r.category = categoryBanking ∨ r.category = categoryPersonal
      · simp [hcat, hkw]
      · simp [hcat, hkw]
  · intro r' h1 h2 h3
    unfold determinePrivacyLevel
    rw [h1, h2, h3]

/-- A concrete banking record used to witness the classifier theorem. -/
def sampleBankEntry : Track3PasswordEntry :=
  { entryId := [49], title := [66, 97, 110, 107], username := [117],
    password := [112], url := [104], notes := [], category := categoryBanking,
    createdAt := 0, updatedAt := 0, zkVerified := false,
    privacyLevel := Tier.privateTier }

/-- `sampleBankEntry` with a different `url`. -/
def sampleBankEntryOtherUrl : Track3PasswordEntry :=
  { sampleBankEntry with url := [119, 119, 119] }

theorem determinePrivacyLevel_spec_witness :
    determinePrivacyLevel sampleBankEntryOtherUrl
      = determinePrivacyLevel sampleBankEntry :=
  (determinePrivacyLevel_spec sampleBankEntry).2.2.2 sampleBankEntryOtherUrl
    rfl rfl rfl

/-! ## Strength checker

Embeds `checkPasswordStrength`, identical in
`RealWalrusSealPasswordManager` (`walrus-seal-real.ts`, lines 644-680) and
`Track3PasswordManager` (`walrus-seal-track3.ts`, lines 574-610).
-/

inductive Strength where
  | weak
  | medium
  | strong
  | veryStrong
deriving DecidableEq, Repr

structure StrengthResult where
  score : Nat
  feedback : List String
  strength : Strength
deriving DecidableEq, Repr

/-- `/[a-z]/.test(password)` -/
def hasLower (password : List Nat) : Bool :=
  password.any (fun c => 97 ≤ c && c ≤ 122)

/-- `/[A-Z]/.test(password)` -/
def hasUpper (password : List Nat) : Bool :=
  password.any (fun c => 65 ≤ c && c ≤ 90)

/-- `/[0-9]/.test(password)` -/
def hasDigit (password : List Nat) : Bool :=
  password.any (fun c => 48 ≤ c && c ≤ 57)

/-- `/[^A-Za-z0-9]/.test(password)` -/
def hasSymbol (password : List Nat) : Bool :=
  password.any
    (fun c => !((65 ≤ c && c ≤ 90) || (97 ≤ c && c ≤ 122) || (48 ≤ c && c ≤ 57)))

/-- `checkPasswordStrength`: seven score-contributing checks in source
order, feedback messages for the five that push one, then the fixed
strength thresholds. -/
def checkPasswordStrength (password : List Nat) : StrengthResult :=
  let score1 : Nat := if 8 ≤ password.length then 1 else 0
  let fb1 : List String :=
    if 8 ≤ password.length then []
    else ["Password should be at least 8 characters long"]
  let score2 := score1 + (if 12 ≤ password.length then 1 else 0)
  let score3 := score2 + (if 16 ≤ password.length then 1 else 0)
  let score4 := score3 + (if hasLower password then 1 else 0)
  let fb4 := fb1 ++ (if hasLower password then [] else ["Include lowercase letters"])
  let score5 := score4 + (if hasUpper password then 1 else 0)
  let fb5 := fb4 ++ (if hasUpper password then [] else ["Include uppercase letters"])
  let score6 := score5 + (if hasDigit password then 1 else 0)
  let fb6 := fb5 ++ (if hasDigit password then [] else ["Include numbers"])
  let score7 := score6 + (if hasSymbol password then 1 else 0)
  let fb7 := fb6 ++ (if hasSymbol password then [] else ["Include special characters"])
  let strength :=
    if score7 ≤ 3 then Strength.weak
    else if score7 ≤ 5 then Strength.medium
    else if score7 ≤ 7 then Strength.strong
    else Strength.veryStrong
  { score := score7, feedback := fb7, strength := strength }

/-- The seven contributing checks, as a list of booleans. -/
def strengthChecks (password : List Nat) : List Bool :=
  [decide (8 ≤ password.length), decide (12 ≤ password.length),
   decide (16 ≤ password.length), hasLower password, hasUpper password,
   hasDigit password, hasSymbol password]

/-- C9: the score is the number of passing checks among the seven (hence
within 0–8), and the strength enum is determined by the fixed thresholds
≤3 weak, ≤5 medium, ≤7 strong, else very-strong. -/
theorem checkPasswordStrength_spec (password : List Nat) :
    (checkPasswordStrength password).score = (strengthChecks password).count true
      ∧ (checkPasswordStrength password).score ≤ 8
      ∧ ((checkPasswordStrength password).strength = Strength.weak
          ↔ (checkPasswordStrength password).score ≤ 3)
      ∧ ((checkPasswordStrength password).strength = Strength.medium
          ↔ 3 < (checkPasswordStrength password).score
            ∧ (checkPasswordStrength password).score ≤ 5)
      ∧ ((checkPasswordStrength password).strength = Strength.strong
          ↔ 5 < (checkPasswordStrength password).score
            ∧ (checkPasswordStrength password).score ≤ 7)
      ∧ ((checkPasswordStrength password).strength = Strength.veryStrong
          ↔ 7 < (checkPasswordStrength password).score) := by
  unfold checkPasswordStrength strengthChecks
  by_cases h1 : 8 ≤ password.length <;>
    by_cases h2 : 12 ≤ password.length <;>
      by_cases h3 : 16 ≤ password.length <;>
        cases hl : hasLower password <;>
          cases hu : hasUpper password <;>
            cases hd : hasDigit password <;>
              cases hs : hasSymbol password <;>
                simp [h1, h2, h3, List.count_cons, List.count_nil]

/-- C10: the score never exceeds 7 — only seven checks each contribute one
point — so the `very-strong` strength (score > 7) is unreachable. -/
theorem checkPasswordStrength_never_veryStrong (password : List Nat) :
    (checkPasswordStrength password).score ≤ 7
      ∧ (checkPasswordStrength password).strength ≠ Strength.veryStrong := by
  unfold checkPasswordStrength
  by_cases h1 : 8 ≤ password.length <;>
    by_cases h2 : 12 ≤ password.length <;>
      by_cases h3 : 16 ≤ password.length <;>
        cases hl : hasLower password <;>
          cases hu : hasUpper password <;>
            cases hd : hasDigit password <;>
              cases hs : hasSymbol password <;>
                simp [h1, h2, h3]

/-! ## Hybrid vault manager (`walrus-seal-real.ts`)

Embeds the localStorage-backed state of `RealWalrusSealPasswordManager`.
The manager is modelled in its localStorage fallback mode
(`sdkInitialized = false`, a reachable mode: SDK construction failures are
caught), so remote Walrus writes are omitted; none of the claims below
depend on them.  `localStorage.setItem` is modelled by consing (reads take
the newest binding, as `getItem` returns the last value written); vault
blobs pass through `JSON` unchanged, so they are stored structurally. -/

/-- `PasswordEntry` of `walrus-seal-real.ts` (lines 12-26). -/
structure PasswordEntry where
  id : String
  title : String
  username : String
  password : String
  url : String
  notes : String
  category : String
  createdAt : Int
  updatedAt : Int
  zkVerified : Bool
  privacyLevel : Tier
  proofHash : Option String
  walrusId : Option String
deriving DecidableEq, Repr

/-- One entry of `VaultData.walrusReferences` (lines 33-39). -/
structure WalrusReference where
  walrusId : String
  proofHash : String
  storedAt : Int
deriving DecidableEq, Repr

/-- `VaultData` (lines 29-49), with the metadata fields the claims read. -/
structure VaultData where
  vaultId : String
  walletAddress : String
  passwords : List PasswordEntry
  walrusReferences : List (String × WalrusReference)
  entryCount : Int
  createdAt : Int
  updatedAt : Int
deriving DecidableEq, Repr

/-- A value held by `localStorage`: a raw string, or a vault blob (stored
as `JSON.stringify(vault)`, which round-trips structurally). -/
inductive StoredVal where
  | str (s : String)
  | vaultBlob (v : VaultData)
deriving DecidableEq, Repr

/-- The manager's mutable state: durable `localStorage`, the in-memory
vault, and the session wallet address. -/
structure RealManagerState where
  localStorage : List (String × StoredVal)
  vault : Option VaultData
  currentWalletAddress : Option String
deriving DecidableEq, Repr

/-- `storeMasterPassword` (lines 213-216):
`localStorage.setItem('fraudguard-master-password', masterPassword)`. -/
def storeMasterPassword (st : RealManagerState) (masterPassword : String) :
    RealManagerState :=
  { st with localStorage :=
      ("fraudguard-master-password", StoredVal.str masterPassword) ::
        st.localStorage }

/-- `saveVaultToStorage` (lines 157-163). -/
def saveVaultToStorage (st : RealManagerState) : RealManagerState :=
  match st.vault, st.currentWalletAddress with
  | some v, some addr =>
      { st with localStorage :=
          ("fraudguard-vault-" ++ addr, StoredVal.vaultBlob v) :: st.localStorage }
  | _, _ => st

/-- The per-entry normalization `createVault` applies (lines 179-186):
generated id when the entry has none (JS `p.id ||`), fresh timestamps,
`zkVerified: true`.  The random id suffix is dropped from the model. -/
def stampEntry (p : PasswordEntry) (now : Int) : PasswordEntry :=
  { p with id := if p.id = "" then "pwd-" ++ toString now else p.id,
           createdAt := now, updatedAt := now, zkVerified := true }

/-- `createVault` (lines 166-210) in fallback mode: store the master
password, build the vault, persist it. -/
def createVault (st : RealManagerState) (masterPassword : String)
    (initialPasswords : List PasswordEntry) (now : Int) :
    Except String (VaultData × RealManagerState) :=
  match st.currentWalletAddress with
  | none => .error "Wallet address required"
  | some addr =>
      let st1 := storeMasterPassword st masterPassword
      let vault : VaultData :=
        { vaultId := "vault-" ++ toString now
          walletAddress := addr
          passwords := initialPasswords.map (fun p => stampEntry p now)
          walrusReferences := []
          entryCount := (initialPasswords.length : Int)
          createdAt := now
          updatedAt := now }
      let st2 := saveVaultToStorage { st1 with vault := some vault }
      .ok (vault, st2)

/-- `addPassword` (lines 278-304): push, then set
`entryCount = passwords.length`. -/
def addPassword (st : RealManagerState) (passwordEntry : PasswordEntry)
    (now : Int) : Except String RealManagerState :=
  match st.vault, st.currentWalletAddress with
  | some v, some _ =>
      let newPassword := stampEntry passwordEntry now
      let v1 :=
        { v with passwords := v.passwords ++ [newPassword]
                 entryCount := ((v.passwords.length + 1 : Nat) : Int)
                 updatedAt := now }
      .ok (saveVaultToStorage { st with vault := some v1 })
  | _, _ => .error "Vault not initialized"

/-- `deletePassword` (lines 341-373): unknown ids are a logged no-op; a
found entry is spliced out, its reference dropped, and
`entryCount = passwords.length` restored. -/
def deletePassword (st : RealManagerState) (passwordId : String) (now : Int) :
    Except String RealManagerState :=
  match st.vault with
  | none => .error "Vault not initialized"
  | some v =>
      match v.passwords.findIdx? (fun p => p.id = passwordId) with
      | none => .ok st
      | some i =>
          let remaining := v.passwords.eraseIdx i
          let v1 :=
            { v with passwords := remaining
                     walrusReferences :=
                       v.walrusReferences.filter (fun kv => kv.1 ≠ passwordId)
                     entryCount := (remaining.length : Int)
                     updatedAt := now }
          .ok (saveVaultToStorage { st with vault := some v1 })

/-- `validateMasterPassword` (lines 395-406): stores the offered password,
then returns `true` unconditionally ("For now, just check if we can access
the vault"). -/
def validateMasterPassword (st : RealManagerState) (masterPassword : String) :
    Bool × RealManagerState :=
  let st1 := storeMasterPassword st masterPassword
  match st1.vault with
  | none => (true, st1)
  | some _ => (true, st1)

/-- The metadata invariant of C7 for the hybrid vault. -/
def vaultConsistent (v : VaultData) : Prop :=
  v.entryCount = (v.passwords.length : Int)

theorem createVault_consistent (st : RealManagerState) (mp : String)
    (ps : List PasswordEntry) (now : Int) (v : VaultData)
    (st' : RealManagerState) (h : createVault st mp ps now = .ok (v, st')) :
    vaultConsistent v := by
  unfold createVault at h
  cases haddr : st.currentWalletAddress with
  | none => rw [haddr] at h; exact absurd h (by simp)
  | some addr =>
      rw [haddr] at h
      simp only [Except.ok.injEq, Prod.mk.injEq] at h
      rcases h with ⟨hv, -⟩
      subst hv
      simp [vaultConsistent]

theorem createVault_consistent_witness :
    ∃ v st', createVault
        { localStorage := [], vault := none, currentWalletAddress := some "w" }
        "m" [] 0 = .ok (v, st') ∧ vaultConsistent v := by
  refine ⟨_, _, rfl, ?_⟩
  exact createVault_consistent
    { localStorage := [], vault := none, currentWalletAddress := some "w" }
    "m" [] 0 _ _ rfl

theorem addPassword_consistent (st : RealManagerState) (p : PasswordEntry)
    (now : Int) (st' : RealManagerState) (h : addPassword st p now = .ok st')
    (v' : VaultData) (hv : st'.vault = some v') : vaultConsistent v' := by
  unfold addPassword at h
  cases hvv : st.vault with
  | none => rw [hvv] at h; exact absurd h (by simp)
  | some v =>
      rw [hvv] at h
      cases haddr : st.currentWalletAddress with
      | none => rw [haddr] at h; exact absurd h (by simp)
      | some addr =>
          rw [haddr] at h
          simp only [Except.ok.injEq] at h
          subst h
          unfold saveVaultToStorage at hv
          simp at hv
          subst hv
          simp [vaultConsistent]

/-- A concrete one-record state for exercising the hybrid manager. -/
def sampleRealState : RealManagerState :=
  { localStorage := []
    vault := some
      { vaultId := "v", walletAddress := "w", passwords := [],
        walrusReferences := [], entryCount := 0, createdAt := 0,
        updatedAt := 0 }
    currentWalletAddress := some "w" }

def samplePasswordEntry : PasswordEntry :=
  { id := "p1", title := "t", username := "u", password := "s",
    url := "", notes := "", category := "", createdAt := 0,
    updatedAt := 0, zkVerified := false,
    privacyLevel := Tier.privateTier, proofHash := none,
    walrusId := none }

theorem addPassword_consistent_witness :
    ∃ st' v', addPassword sampleRealState samplePasswordEntry 1 = .ok st'
      ∧ st'.vault = some v' ∧ vaultConsistent v' := by
  refine ⟨_, _, rfl, rfl, ?_⟩
  exact addPassword_consistent sampleRealState samplePasswordEntry 1 _ rfl _ rfl

theorem saveVaultToStorage_vault (st : RealManagerState) :
    (saveVaultToStorage st).vault = st.vault := by
  obtain ⟨ls, v, cw⟩ := st
  cases v <;> cases cw <;> rfl

/-- The hybrid manager's `deletePassword` preserves the count invariant,
unknown ids included (it leaves the vault untouched there). -/
theorem deletePassword_consistent (st : RealManagerState) (pid : String)
    (now : Int) (v : VaultData) (hv : st.vault = some v)
    (hc : vaultConsistent v) (st' : RealManagerState)
    (h : deletePassword st pid now = .ok st')
    (v' : VaultData) (hv' : st'.vault = some v') : vaultConsistent v' := by
  unfold deletePassword at h
  rw [hv] at h
  dsimp only at h
  cases hidx : v.passwords.findIdx? (fun p => p.id = pid) with
  | none =>
      rw [hidx] at h
      simp only [Except.ok.injEq] at h
      subst h
      rw [hv] at hv'
      injection hv' with hv'
      subst hv'
      exact hc
  | some i =>
      rw [hidx] at h
      simp only [Except.ok.injEq] at h
      subst h
      rw [saveVaultToStorage_vault] at hv'
      simp only [Option.some.injEq] at hv'
      subst hv'
      simp [vaultConsistent]

theorem deletePassword_consistent_witness :
    ∃ st' v', deletePassword sampleRealState "nope" 1 = .ok st'
      ∧ st'.vault = some v' ∧ vaultConsistent v' := by
  refine ⟨_, _, rfl, rfl, ?_⟩
  exact deletePassword_consistent sampleRealState "nope" 1 _ rfl rfl _ rfl _ rfl

/-! ## Track3 manager vault (`walrus-seal-track3.ts`) -/

/-- The slice of `Track3Vault` (lines 42-54) the delete path touches. -/
structure Track3Vault where
  storageReferences : List WalrusStorageReference
  entryCount : Int
  updatedAt : Int
deriving DecidableEq, Repr

/-- `Track3PasswordManager.deletePassword` (lines 453-464): filter out the
references whose `zkProofHash` contains the id, then decrement
`entryCount` unconditionally — whether or not anything matched. -/
def track3DeletePassword (vault : Track3Vault) (passwordId : List Nat)
    (now : Int) : Track3Vault :=
  { vault with
      storageReferences := vault.storageReferences.filter
        (fun ref => !includesSub ref.zkProofHash passwordId)
      entryCount := vault.entryCount - 1
      updatedAt := now }

/-- A vault with one stored reference and a consistent count. -/
def t3SampleVault : Track3Vault :=
  { storageReferences :=
      [{ refId := 1, encryptedData := [], zkProofHash := [1, 2, 3],
         privacyLevel := Tier.privateTier }]
    entryCount := 1
    updatedAt := 0 }

/-- C7: deleting an id that matches no stored record breaks the
`entryCount = records.length` invariant in `Track3PasswordManager`:
starting from a consistent one-record vault, `deletePassword` with the
unmatched id `[9]` removes nothing but still decrements `entryCount`,
leaving count 0 against 1 stored reference. -/
theorem track3_delete_unmatched_breaks_count :
    (track3DeletePassword t3SampleVault [9] 1).storageReferences.length = 1
      ∧ (track3DeletePassword t3SampleVault [9] 1).entryCount = 0
      ∧ (track3DeletePassword t3SampleVault [9] 1).entryCount
          ≠ ((track3DeletePassword t3SampleVault [9] 1).storageReferences.length
              : Int) := by
  refine ⟨rfl, rfl, by decide⟩

/-- A fresh session state: empty storage, no vault, wallet connected. -/
def realInitState : RealManagerState :=
  { localStorage := [], vault := none, currentWalletAddress := some "0xabc" }

/-- C6: the durable mirror DOES hold the master secret in plaintext —
`createVault` routes it through `storeMasterPassword`, which writes the
secret verbatim under the key `fraudguard-master-password`. -/
theorem createVault_persists_master_secret :
    (createVault realInitState "hunter2" [] 0).map
        (fun p => p.2.localStorage.lookup "fraudguard-master-password")
      = .ok (some (StoredVal.str "hunter2")) := rfl

/-- A state whose vault holds one private-tier record, created under the
master secret `"correct"`. -/
def statePrivateRecord : RealManagerState :=
  { localStorage := [("fraudguard-master-password", StoredVal.str "correct")]
    vault := some
      { vaultId := "v", walletAddress := "w",
        passwords := [{ samplePasswordEntry with privacyLevel := Tier.privateTier }],
        walrusReferences := [], entryCount := 1, createdAt := 0,
        updatedAt := 0 }
    currentWalletAddress := some "w" }

/-- C8: `validateMasterPassword` accepts EVERY master secret: it returns
`true` unconditionally (after overwriting the stored master password with
the offered one), for any state — in particular for a vault holding a
private record created under a different secret. -/
theorem validateMasterPassword_always_true (st : RealManagerState)
    (masterPassword : String) :
    (validateMasterPassword st masterPassword).1 = true
      ∧ (validateMasterPassword st masterPassword).2.vault = st.vault
      ∧ (validateMasterPassword statePrivateRecord "wrong").1 = true := by
  refine ⟨?_, ?_, rfl⟩
  · obtain ⟨ls, v, cw⟩ := st
    cases v <;> rfl
  · obtain ⟨ls, v, cw⟩ := st
    cases v <;> rfl

end FraudGuard

